import Mathlib

/-!
Shallow embedding of `src/keychainStorage.ts` (class `KeychainSyncedStore`).

The class keeps an in-memory `Map<string, string>`, a nullable active
encryption key, and a biometrics flag; it talks to three external
collaborators: the keychain (secure key store), `AsyncStorage` (durable blob
store, holding the encrypted blob and the biometrics-preference flag), and the
AES module.  We model these as explicit state:

* `Engine`  — the fields `memory`, `biometricsEnabled`, `encryptionKey`;
* `Durable` — the three durable values (key secret, encrypted blob,
  preference flag string);
* `Env`     — an entropy counter: every call to `Aes.randomKey` (key
  generation or IV generation) consumes a fresh natural number, so freshly
  generated keys and IVs are distinct from all earlier ones;
* failure schedules — each external call is a suspension point that may
  throw; a schedule assigns each call site of one operation an optional
  error, so quantifying over schedules quantifies over all failure
  placements the single-threaded code can observe.

`JSON.stringify(Object.fromEntries(map))` and the inverse
`new Map(Object.entries(JSON.parse(s)))` are modelled as a constructor
wrapper (`Plaintext.mapData`) and its projection: on string-keyed,
string-valued maps with pairwise-distinct keys this JSON round trip is the
identity, and the in-memory `Map` guarantees distinct keys; theorems that
rely on the round trip carry the distinct-keys hypothesis explicitly.

AES-256-CBC is modelled algebraically: a ciphertext remembers the key and IV
it was produced with, and decryption succeeds exactly when the same key is
supplied (decrypting CBC with a wrong key yields a padding failure or
garbage, never the original plaintext).  Error objects are modelled by the
kind the code distinguishes: the catch in `initialize` tests
`error.message.includes("User canceled")`, which holds exactly for the
keychain cancellation error and for no error produced elsewhere in this
class.
-/

namespace KSS

/-- Opaque key material handed out by `Aes.randomKey`/`generateKey`;
modelled as the index of the entropy draw that produced it. -/
abbrev Key := Nat

/-- Error kinds the code distinguishes.  `canceled` is the keychain error
whose message contains the string the catch block in `initialize` tests for;
`keyUnavailable` is the error thrown by `decryptData` when no key is active;
`decryptFailed` is a cipher failure (wrong key); `other` is any other
failure of an external call. -/
inductive Err where
  | canceled
  | keyUnavailable
  | decryptFailed
  | other
deriving DecidableEq, Repr

/-- Models `error.message.includes("User canceled")` from the catch block of
`initialize`. -/
def isCanceledError : Err → Bool
  | .canceled => true
  | _ => false

/-- The serialized form of the in-memory map:
`JSON.stringify(Object.fromEntries(memory))`.  The constructor keeps the
entry list; this is faithful for maps with pairwise-distinct keys, where the
JSON round trip is the identity. -/
inductive Plaintext where
  | mapData : List (String × String) → Plaintext
deriving DecidableEq, Repr

/-- `Object.entries(JSON.parse s)`: recover the entry list. -/
def Plaintext.entries : Plaintext → List (String × String)
  | .mapData m => m

/-- The stored envelope `JSON.stringify({iv, ciphertext})` produced by
`encryptData`.  The ciphertext algebraically remembers the key and plaintext
it was built from. -/
structure Ciphertext where
  iv : Nat
  key : Key
  plain : Plaintext
deriving DecidableEq, Repr

/-- `Aes.encrypt(data, key, iv, "aes-256-cbc")`. -/
def aesEncrypt (data : Plaintext) (key : Key) (iv : Nat) : Ciphertext :=
  ⟨iv, key, data⟩

/-- `Aes.decrypt(ciphertext, key, iv, "aes-256-cbc")` with the envelope's
stored IV: yields the plaintext exactly when the key matches the one the
ciphertext was produced with, otherwise fails (CBC with a wrong key gives a
padding error or garbage, never the plaintext). -/
def aesDecrypt (ct : Ciphertext) (key : Key) : Except Err Plaintext :=
  if ct.key = key then .ok ct.plain else .error .decryptFailed

/-- `String(enabled)` in JS. -/
def boolString (b : Bool) : String :=
  if b then ("true") else ("false")

/-- JS `Map.get(k)` on an insertion-ordered entry list. -/
def mapGet (m : List (String × String)) (k : String) : Option String :=
  (m.find? (fun e => e.1 = k)).map (fun e => e.2)

/-- JS `Map.has(k)`. -/
def mapHas (m : List (String × String)) (k : String) : Bool :=
  m.any (fun e => e.1 = k)

/-- JS `Map.set(k, v)`: update in place when the key exists (keeping its
position), otherwise append. -/
def mapSet (m : List (String × String)) (k v : String) : List (String × String) :=
  if mapHas m k then m.map (fun e => if e.1 = k then (k, v) else e)
  else m ++ [(k, v)]

/-- JS `Map.delete(k)` (the resulting map). -/
def mapDelete (m : List (String × String)) (k : String) : List (String × String) :=
  m.filter (fun e => ¬ e.1 = k)

/-- The keys of the entry list are pairwise distinct — the invariant a JS
`Map` maintains. -/
def UniqueKeys (m : List (String × String)) : Prop :=
  (m.map Prod.fst).Nodup

/-- The mutable fields of `KeychainSyncedStore`:
`memory`, `biometricsEnabled`, `encryptionKey`. -/
structure Engine where
  memory : List (String × String)
  biometricsEnabled : Bool
  encryptionKey : Option Key
deriving DecidableEq, Repr

/-- A freshly constructed store instance. -/
def freshEngine : Engine :=
  { memory := [], biometricsEnabled := false, encryptionKey := none }

/-- Spec §3: `encryptionKeyHandle != null` ⟺ engine state is `Ready`. -/
def isReady (st : Engine) : Bool :=
  st.encryptionKey.isSome

/-- The three durable values: the key secret inside the keychain
(`Keychain.get/setGenericPassword`), the encrypted blob at
`AsyncStorage[encryptedDataKey]`, and the preference flag string at
`AsyncStorage[biometricsPreferenceKey]`. -/
structure Durable where
  keySecret : Option Key
  blob : Option Ciphertext
  prefFlag : Option String
deriving DecidableEq, Repr

/-- Entropy source: `nextNonce` is the next value `Aes.randomKey` returns. -/
structure Env where
  nextNonce : Nat
deriving DecidableEq, Repr

/-- Draw one fresh value from the entropy source. -/
def drawNonce (env : Env) : Nat × Env :=
  (env.nextNonce, ⟨env.nextNonce + 1⟩)

/-- The full world a store instance acts on. -/
structure StoreWorld where
  engine : Engine
  durable : Durable
  env : Env
deriving DecidableEq, Repr

/-- Durable-store effects, for stating ordering properties of rotation. -/
inductive Event where
  | keychainGet
  | blobWrite (ct : Ciphertext)
  | keychainSet (k : Key)
  | prefWrite (s : String)
deriving DecidableEq, Repr

/-- Replay one event against the durable stores (reads change nothing). -/
def applyEvent (d : Durable) : Event → Durable
  | .keychainGet => d
  | .blobWrite ct => { d with blob := some ct }
  | .keychainSet k => { d with keySecret := some k }
  | .prefWrite s => { d with prefFlag := some s }

/-- `getItem(key)`: read the in-memory map only, `value ?? null`. -/
def getItem (st : Engine) (k : String) : Option String :=
  mapGet st.memory k

/-- `encryptData(data, key)`: draw a fresh IV, encrypt, wrap the envelope. -/
def encryptData (data : Plaintext) (key : Key) (env : Env) : Ciphertext × Env :=
  let (iv, env1) := drawNonce env
  (aesEncrypt data key iv, env1)

/-- `decryptData(encryptedJson)`: throw if `this.encryptionKey` is null,
otherwise parse the envelope and decrypt with the active key and stored IV. -/
def decryptData (st : Engine) (ct : Ciphertext) : Except Err Plaintext :=
  match st.encryptionKey with
  | none => .error .keyUnavailable
  | some k => aesDecrypt ct k

/-- `syncToStorage()`: no-op on web or with no active key; otherwise
serialize the current map, encrypt under the active key, write the blob.
`writeErr` injects a failure of the `AsyncStorage.setItem` call; the catch
block only logs, so a failure leaves the durable stores unchanged. -/
def syncToStorage (w : StoreWorld) (web : Bool) (writeErr : Option Err) : StoreWorld :=
  if web then w
  else
    match w.engine.encryptionKey with
    | none => w
    | some key =>
      let (ct, env1) := encryptData (.mapData w.engine.memory) key w.env
      match writeErr with
      | some _ => { w with env := env1 }
      | none => { w with durable := { w.durable with blob := some ct }, env := env1 }

/-- Result of a facade mutation: the new world plus whether a background
sync attempt was enqueued (`this.syncToStorage().catch(...)` was called). -/
structure FacadeResult where
  world : StoreWorld
  syncEnqueued : Bool
deriving DecidableEq, Repr

/-- `setItem(key, value)`: mutate the map, then fire a background sync. -/
def setItem (w : StoreWorld) (web : Bool) (writeErr : Option Err) (k v : String) :
    FacadeResult :=
  let st1 := { w.engine with memory := mapSet w.engine.memory k v }
  { world := syncToStorage { w with engine := st1 } web writeErr, syncEnqueued := true }

/-- `removeItem(key)`: only when the key is present, delete it and fire a
background sync; otherwise do nothing at all. -/
def removeItem (w : StoreWorld) (web : Bool) (writeErr : Option Err) (k : String) :
    FacadeResult :=
  if mapHas w.engine.memory k then
    let st1 := { w.engine with memory := mapDelete w.engine.memory k }
    { world := syncToStorage { w with engine := st1 } web writeErr, syncEnqueued := true }
  else
    { world := w, syncEnqueued := false }

/-- Failure schedule for `initialize`: one slot per external call site, in
program order.  `none` means the call succeeds (returning whatever the
durable stores hold); `some e` means it throws `e`. -/
structure InitSchedule where
  prefReadErr : Option Err
  keyGetErr : Option Err
  genKeyErr : Option Err
  keySaveErr : Option Err
  blobReadErr : Option Err
deriving DecidableEq, Repr

/-- The all-success schedule for `initialize`. -/
def initOk : InitSchedule :=
  { prefReadErr := none, keyGetErr := none, genKeyErr := none,
    keySaveErr := none, blobReadErr := none }

/-- Result of `initialize` (exposed by the factory as `load`): the new
world and the error the surrounding catch block caught (`none` when no step
threw); `initialize` itself never rethrows. -/
structure InitResult where
  world : StoreWorld
  caught : Option Err
deriving DecidableEq, Repr

/-- The catch block of `initialize`: on a cancellation error clear the map
and the active key; on any other error only log (state keeps whatever the
partial run left). -/
def loadCatch (w : StoreWorld) (e : Err) : InitResult :=
  if isCanceledError e then
    { world := { w with engine := { w.engine with memory := [], encryptionKey := none } },
      caught := some e }
  else
    { world := w, caught := some e }

/-- The tail of `initialize` after the key is obtained: assign
`this.encryptionKey = key`, then fetch, decrypt and parse the blob. -/
def loadBlob (w : StoreWorld) (sc : InitSchedule) (key : Key) : InitResult :=
  let w1 := { w with engine := { w.engine with encryptionKey := some key } }
  match sc.blobReadErr with
  | some e => loadCatch w1 e
  | none =>
    match w1.durable.blob with
    | none => { world := w1, caught := none }
    | some ct =>
      match decryptData w1.engine ct with
      | .error e => loadCatch w1 e
      | .ok p =>
        { world := { w1 with engine := { w1.engine with memory := p.entries } },
          caught := none }

/-- `initialize()` (the factory exposes it as `load`): no-op on web; load
the biometrics preference (its own failure is swallowed, keeping the
previous flag); get the key from the keychain, generating and saving a
fresh one when absent; assign it; load and decrypt the blob into the map.
Any throw lands in `loadCatch`. -/
def load (w : StoreWorld) (web : Bool) (sc : InitSchedule) : InitResult :=
  if web then { world := w, caught := none }
  else
    let bio :=
      match sc.prefReadErr with
      | some _ => w.engine.biometricsEnabled
      | none => decide (w.durable.prefFlag = some ("true"))
    let w1 := { w with engine := { w.engine with biometricsEnabled := bio } }
    match sc.keyGetErr with
    | some e => loadCatch w1 e
    | none =>
      match w1.durable.keySecret with
      | some key => loadBlob w1 sc key
      | none =>
        match sc.genKeyErr with
        | some e => loadCatch w1 e
        | none =>
          let (key, env1) := drawNonce w1.env
          let w2 := { w1 with env := env1 }
          match sc.keySaveErr with
          | some e => loadCatch w2 e
          | none =>
            let w3 := { w2 with durable := { w2.durable with keySecret := some key } }
            loadBlob w3 sc key

/-- Failure schedule for `setEnableBiometrics`, one slot per external call
site in program order.  The re-auth read slot is consulted only when the
engine is currently in biometric mode. -/
structure RotSchedule where
  keyGetErr : Option Err
  genKeyErr : Option Err
  encryptErr : Option Err
  blobWriteErr : Option Err
  keySaveErr : Option Err
  prefWriteErr : Option Err
deriving DecidableEq, Repr

/-- The all-success schedule for `setEnableBiometrics`. -/
def rotOk : RotSchedule :=
  { keyGetErr := none, genKeyErr := none, encryptErr := none,
    blobWriteErr := none, keySaveErr := none, prefWriteErr := none }

deriving instance DecidableEq for Except

/-- Result of `setEnableBiometrics`: the outcome surfaced to the caller
(the catch block rethrows), the new world, and the trace of durable-store
effects that actually happened, in order. -/
structure RotResult where
  result : Except Err Unit
  world : StoreWorld
  trace : List Event
deriving DecidableEq, Repr

/-- `setEnableBiometrics(enabled)`: no-op on web or when no key is active.
Otherwise: (1) when currently in biometric mode, re-read the key from the
keychain (forcing re-auth; the value is discarded); (2) snapshot the map;
(3) generate a new key; (4) encrypt the snapshot under it and write the
blob; (5) save the new key to the keychain; (6) commit the key and flag
in memory, then persist the preference flag.  Any throw is rethrown to the
caller after logging; note steps already performed are not rolled back. -/
def setEnableBiometrics (w : StoreWorld) (web : Bool) (sc : RotSchedule)
    (enabled : Bool) : RotResult :=
  if web ∨ w.engine.encryptionKey = none then
    { result := .ok (), world := w, trace := [] }
  else
    let tr0 : List Event := if w.engine.biometricsEnabled then [.keychainGet] else []
    let authErr := if w.engine.biometricsEnabled then sc.keyGetErr else none
    match authErr with
    | some e => { result := .error e, world := w, trace := tr0 }
    | none =>
      let dataToReEncrypt := w.engine.memory
      match sc.genKeyErr with
      | some e => { result := .error e, world := w, trace := tr0 }
      | none =>
        let (newKey, env1) := drawNonce w.env
        let wk := { w with env := env1 }
        match sc.encryptErr with
        | some e => { result := .error e, world := wk, trace := tr0 }
        | none =>
          let (ct, env2) := encryptData (.mapData dataToReEncrypt) newKey wk.env
          let we := { wk with env := env2 }
          match sc.blobWriteErr with
          | some e => { result := .error e, world := we, trace := tr0 }
          | none =>
            let wb := { we with durable := { we.durable with blob := some ct } }
            let tr1 := tr0 ++ [.blobWrite ct]
            match sc.keySaveErr with
            | some e => { result := .error e, world := wb, trace := tr1 }
            | none =>
              let wkc := { wb with durable := { wb.durable with keySecret := some newKey } }
              let tr2 := tr1 ++ [.keychainSet newKey]
              let wcommit :=
                { wkc with engine :=
                    { wkc.engine with encryptionKey := some newKey,
                                      biometricsEnabled := enabled } }
              match sc.prefWriteErr with
              | some e => { result := .error e, world := wcommit, trace := tr2 }
              | none =>
                { result := .ok (),
                  world :=
                    { wcommit with durable :=
                        { wcommit.durable with prefFlag := some (boolString enabled) } },
                  trace := tr2 ++ [.prefWrite (boolString enabled)] }

end KSS

namespace KSS

/-! ### Helper lemmas about the map model -/

theorem mapGet_mapDelete (m : List (String × String)) (k : String) :
    mapGet (mapDelete m k) k = none := by
  induction m with
  | nil => rfl
  | cons a t ih =>
    by_cases h : a.1 = k
    · simpa [mapDelete, h] using ih
    · simp only [mapDelete] at ih ⊢
      simp [List.filter, mapGet, List.find?, h, ih]

theorem mapGet_eq_none_of_not_has (m : List (String × String)) (k : String)
    (h : mapHas m k = false) : mapGet m k = none := by
  simp only [mapHas, List.any_eq_false, decide_eq_true_eq] at h
  have hf : List.find? (fun e => decide (e.1 = k)) m = none := by
    rw [List.find?_eq_none]
    intro x hx
    simpa using h x hx
  simp [mapGet, hf]

end KSS

namespace KSS

/-! ### Helper lemmas about the operations -/

theorem loadCatch_caught (w : StoreWorld) (e : Err) : (loadCatch w e).caught = some e := by
  unfold loadCatch; split <;> rfl

theorem loadCatch_not_canceled (w : StoreWorld) (e : Err)
    (hnc : isCanceledError e = false) :
    loadCatch w e = { world := w, caught := some e } := by
  simp [loadCatch, hnc]

theorem syncToStorage_engine (w : StoreWorld) (web : Bool) (writeErr : Option Err) :
    (syncToStorage w web writeErr).engine = w.engine := by
  unfold syncToStorage
  cases web <;> cases hek : w.engine.encryptionKey <;> cases writeErr <;>
    simp [hek, encryptData, drawNonce]

theorem syncToStorage_keySecret (w : StoreWorld) (web : Bool) (writeErr : Option Err) :
    (syncToStorage w web writeErr).durable.keySecret = w.durable.keySecret := by
  unfold syncToStorage
  cases web <;> cases hek : w.engine.encryptionKey <;> cases writeErr <;>
    simp [hek, encryptData, drawNonce]

end KSS

namespace KSS

/-! ### Sample worlds used by witnesses and counterexamples -/

/-- A Ready engine holding one entry, its key also in the keychain. -/
def wReady : StoreWorld :=
  ⟨⟨[("session", "A")], false, some 0⟩,
   ⟨some 0, some ⟨9, 0, .mapData [("session", "A")]⟩, some ("false")⟩, ⟨1⟩⟩

/-- A biometric-mode engine with a cached entry, for the cancellation runs. -/
def wBio : StoreWorld :=
  ⟨⟨[("session", "A")], true, some 0⟩, ⟨some 0, none, some ("true")⟩, ⟨5⟩⟩

/-- A fresh instance whose durable blob was encrypted under key 1 while the
keychain holds key 0 — the blob cannot be decrypted on load. -/
def wStale : StoreWorld :=
  ⟨freshEngine, ⟨some 0, some ⟨7, 1, .mapData [("a", "1")]⟩, some ("false")⟩, ⟨2⟩⟩

/-- The `initialize` schedule whose keychain read is canceled by the user. -/
def scCancel : InitSchedule := { initOk with keyGetErr := some .canceled }

/-- The rotation schedule whose final preference write fails. -/
def scPrefFail : RotSchedule := { rotOk with prefWriteErr := some .other }

/-- The rotation schedule whose key generation fails. -/
def scGenFail : RotSchedule := { rotOk with genKeyErr := some .other }

/-! ### C1 -/

/-- C1: if the keychain key retrieval inside `initialize()` fails with the
authentication-cancellation error, then after `initialize()` returns the
in-memory map is empty (`getItem` returns null for every key, including
every previously cached one), the active encryption key handle is null, and
the engine is not Ready. -/
theorem load_cancel_fails_empty (w : StoreWorld) (sc : InitSchedule)
    (hc : sc.keyGetErr = some .canceled) :
    (∀ k, getItem (load w false sc).world.engine k = none) ∧
    (load w false sc).world.engine.encryptionKey = none ∧
    isReady (load w false sc).world.engine = false := by
  simp [load, hc, loadCatch, isCanceledError, getItem, mapGet, isReady]

/-- Witness for C1 at a concrete biometric-mode world holding a cached
entry. -/
theorem load_cancel_fails_empty_witness :
    scCancel.keyGetErr = some .canceled ∧
    getItem (load wBio false scCancel).world.engine ("session") = none ∧
    (load wBio false scCancel).world.engine.encryptionKey = none ∧
    isReady (load wBio false scCancel).world.engine = false :=
  ⟨rfl, (load_cancel_fails_empty wBio scCancel rfl).1 ("session"),
    (load_cancel_fails_empty wBio scCancel rfl).2.1,
    (load_cancel_fails_empty wBio scCancel rfl).2.2⟩

/-! ### C2 -/

/-- C2 counterexample: a `setEnableBiometrics` call in which every step
succeeds except the final write of the preference flag.  The error is
surfaced to the caller, yet the active key handle and the in-memory
protection-mode flag have already been replaced — the attempt did partially
commit into engine state, refuting the claim as stated. -/
theorem rotation_failure_partial_commit_cex :
    (setEnableBiometrics wReady false scPrefFail true).result = .error .other ∧
    ¬ ((setEnableBiometrics wReady false scPrefFail true).world.engine.encryptionKey
         = wReady.engine.encryptionKey ∧
       (setEnableBiometrics wReady false scPrefFail true).world.engine.biometricsEnabled
         = wReady.engine.biometricsEnabled) := by
  decide

/-- C2 amended: when `setEnableBiometrics` surfaces an error, the in-memory
map is always unchanged, and either the active key handle and the
protection-mode flag are both unchanged (failure at any step up to and
including the keychain save of the new key), or the failure was the final
preference-flag write, in which case the key handle has already been set to
the freshly generated key and the flag to the requested value. -/
theorem rotation_failure_state (w : StoreWorld) (web : Bool) (sc : RotSchedule)
    (enabled : Bool) (e : Err)
    (h : (setEnableBiometrics w web sc enabled).result = .error e) :
    (setEnableBiometrics w web sc enabled).world.engine.memory = w.engine.memory ∧
    (((setEnableBiometrics w web sc enabled).world.engine.encryptionKey
        = w.engine.encryptionKey ∧
      (setEnableBiometrics w web sc enabled).world.engine.biometricsEnabled
        = w.engine.biometricsEnabled) ∨
     ((setEnableBiometrics w web sc enabled).world.engine.encryptionKey
        = some w.env.nextNonce ∧
      (setEnableBiometrics w web sc enabled).world.engine.biometricsEnabled
        = enabled ∧
      sc.prefWriteErr = some e)) := by
  rcases sc with ⟨kg, gk, ee, bw, ks, pw⟩
  unfold setEnableBiometrics at h ⊢
  cases web <;> cases hek : w.engine.encryptionKey <;>
    cases hbio : w.engine.biometricsEnabled <;>
    cases kg <;> cases gk <;> cases ee <;> cases bw <;> cases ks <;> cases pw <;>
    simp [hek, hbio, drawNonce, encryptData] at h ⊢ <;> simp [h]

/-- Witness for C2 (amended) at a failing key generation. -/
theorem rotation_failure_state_witness :
    (setEnableBiometrics wReady false scGenFail true).result = .error .other ∧
    (setEnableBiometrics wReady false scGenFail true).world.engine.memory
      = wReady.engine.memory ∧
    (((setEnableBiometrics wReady false scGenFail true).world.engine.encryptionKey
        = wReady.engine.encryptionKey ∧
      (setEnableBiometrics wReady false scGenFail true).world.engine.biometricsEnabled
        = wReady.engine.biometricsEnabled) ∨
     ((setEnableBiometrics wReady false scGenFail true).world.engine.encryptionKey
        = some wReady.env.nextNonce ∧
      (setEnableBiometrics wReady false scGenFail true).world.engine.biometricsEnabled
        = true ∧
      scGenFail.prefWriteErr = some .other)) :=
  ⟨by decide, (rotation_failure_state wReady false scGenFail true .other (by decide)).1,
    (rotation_failure_state wReady false scGenFail true .other (by decide)).2⟩

end KSS

namespace KSS

/-! ### C6 -/

/-- C6 counterexample: an `initialize()` run that fails for a reason other
than authentication cancellation — the keychain returns key 0 but the
persisted blob was encrypted under key 1, so decryption fails — yet when
`initialize()` returns, the active key handle is set (the code assigns
`this.encryptionKey` before fetching and decrypting the blob, and the
non-cancellation catch leaves it in place), refuting the claim as stated. -/
theorem load_failure_ready_cex :
    (load wStale false initOk).caught = some .decryptFailed ∧
    isCanceledError .decryptFailed = false ∧
    ¬ ((load wStale false initOk).world.engine.encryptionKey = none) := by
  decide

/-- C6 amended: after an `initialize()` that fails for a reason other than
authentication cancellation, the active key handle is whatever the partial
run left: unchanged from entry when the failure occurred before the key was
obtained, the keychain key when the keychain held one, or the freshly
generated key when it did not — in particular it may be non-null, so a
failed `initialize()` can leave the engine satisfying the Ready invariant. -/
theorem load_failure_key_handle (w : StoreWorld) (sc : InitSchedule) (e : Err)
    (h : (load w false sc).caught = some e) (hnc : isCanceledError e = false) :
    (load w false sc).world.engine.encryptionKey = w.engine.encryptionKey ∨
    ((load w false sc).world.engine.encryptionKey = w.durable.keySecret ∧
      ¬ w.durable.keySecret = none) ∨
    ((load w false sc).world.engine.encryptionKey = some w.env.nextNonce ∧
      w.durable.keySecret = none) := by
  rcases sc with ⟨pr, kg, gk, ksv, br⟩
  unfold load loadBlob at h ⊢
  cases pr <;> cases kg <;> cases hks : w.durable.keySecret <;> cases gk <;> cases ksv <;>
    cases br <;> cases hb : w.durable.blob <;>
    simp [hks, hb, loadCatch_caught, drawNonce, decryptData, aesDecrypt] at h ⊢ <;>
    (try subst h) <;> (try simp [loadCatch_not_canceled _ _ hnc, hks]) <;>
    (try split at h) <;> (try simp_all [loadCatch_caught]) <;>
    (try subst h) <;> (try simp [loadCatch_not_canceled _ _ hnc, hks])

/-- Witness for C6 (amended) at the stale-blob world. -/
theorem load_failure_key_handle_witness :
    (load wStale false initOk).caught = some .decryptFailed ∧
    isCanceledError .decryptFailed = false ∧
    ((load wStale false initOk).world.engine.encryptionKey
       = wStale.engine.encryptionKey ∨
     ((load wStale false initOk).world.engine.encryptionKey
        = wStale.durable.keySecret ∧ ¬ wStale.durable.keySecret = none) ∨
     ((load wStale false initOk).world.engine.encryptionKey
        = some wStale.env.nextNonce ∧ wStale.durable.keySecret = none)) :=
  ⟨by decide, by decide,
    load_failure_key_handle wStale initOk .decryptFailed (by decide) (by decide)⟩

/-! ### C7 -/

/-- C7 counterexample: calling `removeItem` with a key that is absent from
the in-memory map does not enqueue a background sync attempt (the code only
syncs inside `if (this.memory.has(key))`), refuting the claim that every
call enqueues one. -/
theorem removeItem_always_syncs_cex :
    ¬ ((removeItem wReady false none ("absent")).syncEnqueued = true ∧
       getItem (removeItem wReady false none ("absent")).world.engine ("absent")
         = none) := by
  decide

/-- C7 amended: `removeItem` enqueues a background sync attempt exactly when
the key was present in the in-memory map, and in every case the map
afterwards does not contain the key. -/
theorem removeItem_sync_iff_present (w : StoreWorld) (web : Bool)
    (writeErr : Option Err) (k : String) :
    (removeItem w web writeErr k).syncEnqueued = mapHas w.engine.memory k ∧
    getItem (removeItem w web writeErr k).world.engine k = none := by
  unfold removeItem
  by_cases h : mapHas w.engine.memory k
  · simp [h, getItem, syncToStorage_engine, mapGet_mapDelete]
  · have hb : mapHas w.engine.memory k = false := by simpa using h
    simp [hb, getItem, mapGet_eq_none_of_not_has _ _ hb]

/-! ### C8 -/

/-- C8: when the platform is web or the engine holds no active encryption
key (is not Ready), `setEnableBiometrics` returns successfully and leaves
everything unchanged — the in-memory map, the active key handle, the
in-memory protection-mode flag, and all three durable values. -/
theorem rotation_noop_not_ready (w : StoreWorld) (sc : RotSchedule) (web : Bool)
    (enabled : Bool) (h : web = true ∨ w.engine.encryptionKey = none) :
    (setEnableBiometrics w web sc enabled).result = .ok () ∧
    (setEnableBiometrics w web sc enabled).world = w := by
  have hr : setEnableBiometrics w web sc enabled
      = { result := .ok (), world := w, trace := [] } := by
    unfold setEnableBiometrics
    rw [if_pos h]
  rw [hr]
  exact ⟨rfl, rfl⟩

/-- Witness for C8 at a not-Ready engine on a native platform. -/
theorem rotation_noop_not_ready_witness :
    ((true : Bool) = true ∨ wStale.engine.encryptionKey = none) ∧
    (setEnableBiometrics wStale true rotOk true).result = .ok () ∧
    (setEnableBiometrics wStale true rotOk true).world = wStale :=
  ⟨Or.inl rfl, (rotation_noop_not_ready wStale rotOk true true (Or.inl rfl)).1,
    (rotation_noop_not_ready wStale rotOk true true (Or.inl rfl)).2⟩

/-! ### C9 -/

/-- C9: whenever `decryptData` is invoked while no encryption key is active,
it signals the key-unavailable error and never returns plaintext, for every
encrypted input. -/
theorem decrypt_without_key_fails_closed (st : Engine) (ct : Ciphertext)
    (h : st.encryptionKey = none) :
    decryptData st ct = .error .keyUnavailable := by
  simp [decryptData, h]

/-- Witness for C9 at a concrete keyless engine and ciphertext. -/
theorem decrypt_without_key_fails_closed_witness :
    freshEngine.encryptionKey = none ∧
    decryptData freshEngine ⟨3, 4, .mapData [("a", "1")]⟩ = .error .keyUnavailable :=
  ⟨rfl, decrypt_without_key_fails_closed freshEngine ⟨3, 4, .mapData [("a", "1")]⟩ rfl⟩

/-! ### C10 -/

/-- C10: every execution of `setEnableBiometrics` — no-op, successful, or
failing at any step — leaves the in-memory map unchanged: rotation
re-encrypts a snapshot of the entries but never adds, removes, or modifies
an entry in the map itself. -/
theorem rotation_preserves_memory (w : StoreWorld) (web : Bool) (sc : RotSchedule)
    (enabled : Bool) :
    (setEnableBiometrics w web sc enabled).world.engine.memory = w.engine.memory := by
  rcases sc with ⟨kg, gk, ee, bw, ks, pw⟩
  unfold setEnableBiometrics
  cases web <;> cases hek : w.engine.encryptionKey <;>
    cases hbio : w.engine.biometricsEnabled <;>
    cases kg <;> cases gk <;> cases ee <;> cases bw <;> cases ks <;> cases pw <;>
    simp [hek, hbio]

end KSS

namespace KSS

instance (m : List (String × String)) : Decidable (UniqueKeys m) :=
  List.nodupDecidable _

/-! ### C4 -/

/-- C4: for a Ready engine (key active, also claimed for non-empty
unique-keyed maps as a JS `Map` guarantees), a fully successful
`setEnableBiometrics` followed by a fresh `initialize()` against the
resulting durable stores reloads an in-memory map equal to the pre-rotation
map, with the active key of the reloaded instance being the newly generated
key, and the load succeeding (decryption under the new key). -/
theorem rotation_preserves_data (w : StoreWorld) (k0 : Key) (enabled : Bool)
    (hkey : w.engine.encryptionKey = some k0)
    (_hne : ¬ w.engine.memory = [])
    (_huniq : UniqueKeys w.engine.memory) :
    (setEnableBiometrics w false rotOk enabled).result = .ok () ∧
    (load ⟨freshEngine, (setEnableBiometrics w false rotOk enabled).world.durable,
        (setEnableBiometrics w false rotOk enabled).world.env⟩ false initOk).world.engine.memory
      = w.engine.memory ∧
    (load ⟨freshEngine, (setEnableBiometrics w false rotOk enabled).world.durable,
        (setEnableBiometrics w false rotOk enabled).world.env⟩ false initOk).world.engine.encryptionKey
      = some w.env.nextNonce ∧
    (load ⟨freshEngine, (setEnableBiometrics w false rotOk enabled).world.durable,
        (setEnableBiometrics w false rotOk enabled).world.env⟩ false initOk).caught
      = none := by
  cases hbio : w.engine.biometricsEnabled <;>
    simp [setEnableBiometrics, load, loadBlob, decryptData, aesDecrypt, aesEncrypt, encryptData,
      drawNonce, hkey, hbio, freshEngine, rotOk, initOk, Plaintext.entries]

/-- Witness for C4 at a concrete one-entry Ready world. -/
theorem rotation_preserves_data_witness :
    wReady.engine.encryptionKey = some 0 ∧
    ¬ wReady.engine.memory = [] ∧ UniqueKeys wReady.engine.memory ∧
    (setEnableBiometrics wReady false rotOk true).result = .ok () ∧
    (load ⟨freshEngine, (setEnableBiometrics wReady false rotOk true).world.durable,
        (setEnableBiometrics wReady false rotOk true).world.env⟩ false initOk).world.engine.memory
      = wReady.engine.memory ∧
    (load ⟨freshEngine, (setEnableBiometrics wReady false rotOk true).world.durable,
        (setEnableBiometrics wReady false rotOk true).world.env⟩ false initOk).world.engine.encryptionKey
      = some wReady.env.nextNonce ∧
    (load ⟨freshEngine, (setEnableBiometrics wReady false rotOk true).world.durable,
        (setEnableBiometrics wReady false rotOk true).world.env⟩ false initOk).caught
      = none := by
  refine ⟨by decide, by decide, by decide, ?_⟩
  have hr := rotation_preserves_data wReady 0 true (by decide) (by decide) (by decide)
  exact ⟨hr.1, hr.2.1, hr.2.2.1, hr.2.2.2⟩

/-! ### C5 -/

/-- A facade mutation: `setItem` or `removeItem`. -/
inductive FOp where
  | set (k v : String)
  | remove (k : String)
deriving DecidableEq, Repr

/-- Apply one facade mutation together with the outcome of the background
sync it may trigger. -/
def applyOp (w : StoreWorld) (web : Bool) (op : FOp × Option Err) : StoreWorld :=
  match op.1 with
  | .set k v => (setItem w web op.2 k v).world
  | .remove k => (removeItem w web op.2 k).world

/-- Apply a sequence of facade mutations in order. -/
def applyOps (w : StoreWorld) (web : Bool) (ops : List (FOp × Option Err)) : StoreWorld :=
  ops.foldl (fun acc op => applyOp acc web op) w

theorem applyOp_frame (w : StoreWorld) (web : Bool) (op : FOp × Option Err) :
    (applyOp w web op).engine.encryptionKey = w.engine.encryptionKey ∧
    (applyOp w web op).durable.keySecret = w.durable.keySecret := by
  rcases op with ⟨op, err⟩
  cases op with
  | set k v => simp [applyOp, setItem, syncToStorage_engine, syncToStorage_keySecret]
  | remove k =>
    by_cases h : mapHas w.engine.memory k <;>
      simp [applyOp, removeItem, h, syncToStorage_engine, syncToStorage_keySecret]

theorem applyOps_frame (w : StoreWorld) (web : Bool) (ops : List (FOp × Option Err)) :
    (applyOps w web ops).engine.encryptionKey = w.engine.encryptionKey ∧
    (applyOps w web ops).durable.keySecret = w.durable.keySecret := by
  induction ops generalizing w with
  | nil => exact ⟨rfl, rfl⟩
  | cons op t ih =>
    have hstep : applyOps w web (op :: t) = applyOps (applyOp w web op) web t := rfl
    rw [hstep]
    rcases ih (applyOp w web op) with ⟨h1, h2⟩
    rcases applyOp_frame w web op with ⟨g1, g2⟩
    exact ⟨h1.trans g1, h2.trans g2⟩

/-- C5: for every sequence of `setItem`/`removeItem` calls (whose triggered
background syncs may fail arbitrarily) followed by a completed background
sync and then a fresh `initialize()` against the same durable stores and the
same key, the reloaded in-memory map equals the in-memory map at the time
of the last completed sync: serialize, encrypt with a fresh IV, persist,
then fetch, decrypt, parse is an identity on the map. -/
theorem write_behind_round_trip (w : StoreWorld) (kk : Key)
    (ops : List (FOp × Option Err))
    (hkey : w.engine.encryptionKey = some kk)
    (hsec : w.durable.keySecret = some kk)
    (_huniq : UniqueKeys w.engine.memory) :
    (load ⟨freshEngine,
        (syncToStorage (applyOps w false ops) false none).durable,
        (syncToStorage (applyOps w false ops) false none).env⟩ false initOk).world.engine.memory
      = (applyOps w false ops).engine.memory ∧
    (load ⟨freshEngine,
        (syncToStorage (applyOps w false ops) false none).durable,
        (syncToStorage (applyOps w false ops) false none).env⟩ false initOk).caught
      = none := by
  have ha1 : (applyOps w false ops).engine.encryptionKey = some kk :=
    (applyOps_frame w false ops).1.trans hkey
  have ha2 : (applyOps w false ops).durable.keySecret = some kk :=
    (applyOps_frame w false ops).2.trans hsec
  simp [syncToStorage, ha1, ha2, load, loadBlob, decryptData, aesDecrypt, aesEncrypt,
    encryptData, drawNonce, freshEngine, initOk, Plaintext.entries]

/-- Witness for C5: set two values for the same key, remove a missing key,
with one failing intermediate sync, then sync and reload. -/
theorem write_behind_round_trip_witness :
    wReady.engine.encryptionKey = some 0 ∧
    wReady.durable.keySecret = some 0 ∧
    UniqueKeys wReady.engine.memory ∧
    (load ⟨freshEngine,
        (syncToStorage (applyOps wReady false
          [(.set ("session") ("B"), some .other), (.remove ("gone"), none),
           (.set ("token") ("T"), none)]) false none).durable,
        (syncToStorage (applyOps wReady false
          [(.set ("session") ("B"), some .other), (.remove ("gone"), none),
           (.set ("token") ("T"), none)]) false none).env⟩ false initOk).world.engine.memory
      = (applyOps wReady false
          [(.set ("session") ("B"), some .other), (.remove ("gone"), none),
           (.set ("token") ("T"), none)]).engine.memory := by
  refine ⟨by decide, by decide, by decide, ?_⟩
  exact (write_behind_round_trip wReady 0
    [(.set ("session") ("B"), some .other), (.remove ("gone"), none),
     (.set ("token") ("T"), none)] (by decide) (by decide) (by decide)).1

end KSS

namespace KSS

/-! ### C3 -/

/-- Whether an `Except` result of decryption succeeded. -/
def decryptOk (r : Except Err Plaintext) : Bool :=
  match r with
  | .ok _ => true
  | .error _ => false

/-- The persisted blob (when present) is decryptable by the key currently
retrievable from the secure key store. -/
def blobDecryptableByStoreKey (d : Durable) : Bool :=
  match d.blob with
  | none => true
  | some ct =>
    match d.keySecret with
    | none => false
    | some kk => decryptOk (aesDecrypt ct kk)

/-- The persisted blob (when present) is decryptable by the key in the
secure key store or by the given in-flight key. -/
def blobDecryptableSomewhere (d : Durable) (extraKey : Key) : Bool :=
  match d.blob with
  | none => true
  | some ct => blobDecryptableByStoreKey d || decryptOk (aesDecrypt ct extraKey)

theorem somewhere_of_store (d : Durable) (k : Key)
    (h : blobDecryptableByStoreKey d = true) :
    blobDecryptableSomewhere d k = true := by
  unfold blobDecryptableSomewhere
  cases hb : d.blob <;> simp [h]

/-- C3 counterexample: a successful `setEnableBiometrics` run on a Ready
world whose durable blob and keychain key agree; after the prefix of the
step sequence ending with the blob write (`trace.take 1`), the persisted
blob is encrypted under the new key while the secure key store still holds
the old one, so it is not decryptable by any key retrievable from the
store — refuting the claim's "after any prefix" consequence. -/
theorem rotation_blob_decryptable_gap_cex :
    (setEnableBiometrics wReady false rotOk true).result = .ok () ∧
    blobDecryptableByStoreKey
      (List.foldl applyEvent wReady.durable
        ((setEnableBiometrics wReady false rotOk true).trace.take 1)) = false := by
  decide

/-- C3 amended: in every successful rotation on a Ready engine, the durable
effects are exactly an optional re-auth keychain read, then the write of
the blob encrypted under the new key, then the store of the new key into
the keychain, then the preference write — so the blob write strictly
precedes the key store — and, provided the initial blob was decryptable by
the stored key, after any prefix of the step sequence the persisted blob is
decryptable by the key in the secure key store or by the in-flight newly
generated key (between the blob write and the key store it is decryptable
only by the latter, which exists solely in process memory). -/
theorem rotation_blob_write_precedes_key_store
    (w : StoreWorld) (sc : RotSchedule) (enabled : Bool) (k0 : Key)
    (hkey : w.engine.encryptionKey = some k0)
    (h : (setEnableBiometrics w false sc enabled).result = .ok ())
    (hd : blobDecryptableByStoreKey w.durable = true) :
    (setEnableBiometrics w false sc enabled).trace
      = (if w.engine.biometricsEnabled then [Event.keychainGet] else [])
        ++ [Event.blobWrite (aesEncrypt (.mapData w.engine.memory) w.env.nextNonce
              (w.env.nextNonce + 1)),
            Event.keychainSet w.env.nextNonce,
            Event.prefWrite (boolString enabled)] ∧
    (∀ n, blobDecryptableSomewhere
        (List.foldl applyEvent w.durable
          ((setEnableBiometrics w false sc enabled).trace.take n)) w.env.nextNonce
      = true) := by
  rcases sc with ⟨kg, gk, ee, bw, ks, pw⟩
  unfold setEnableBiometrics at h ⊢
  cases hbio : w.engine.biometricsEnabled <;>
    cases kg <;> cases gk <;> cases ee <;> cases bw <;> cases ks <;> cases pw <;>
    simp [hkey, hbio, drawNonce, encryptData, aesEncrypt] at h ⊢ <;>
    (intro n; rcases n with _|_|_|_|_|n <;>
      first
        | exact somewhere_of_store _ _ hd
        | simp [List.take, applyEvent, blobDecryptableSomewhere, blobDecryptableByStoreKey,
            decryptOk, aesDecrypt])

/-- Witness for C3 (amended) at the concrete Ready world. -/
theorem rotation_blob_write_precedes_key_store_witness :
    wReady.engine.encryptionKey = some 0 ∧
    (setEnableBiometrics wReady false rotOk true).result = .ok () ∧
    blobDecryptableByStoreKey wReady.durable = true ∧
    (setEnableBiometrics wReady false rotOk true).trace
      = (if wReady.engine.biometricsEnabled then [Event.keychainGet] else [])
        ++ [Event.blobWrite (aesEncrypt (.mapData wReady.engine.memory) wReady.env.nextNonce
              (wReady.env.nextNonce + 1)),
            Event.keychainSet wReady.env.nextNonce,
            Event.prefWrite (boolString true)] ∧
    blobDecryptableSomewhere
      (List.foldl applyEvent wReady.durable
        ((setEnableBiometrics wReady false rotOk true).trace.take 2)) wReady.env.nextNonce
      = true := by
  refine ⟨by decide, by decide, by decide, ?_, ?_⟩
  · exact (rotation_blob_write_precedes_key_store wReady rotOk true 0
      (by decide) (by decide) (by decide)).1
  · exact (rotation_blob_write_precedes_key_store wReady rotOk true 0
      (by decide) (by decide) (by decide)).2 2

end KSS
